import Mathlib

set_option maxRecDepth 4000

namespace RDPportscan

/-! # Shallow embedding of the RDPportscan connection core

Byte streams are `List Nat` whose elements are octet values; machine
integers are `Nat` with an explicit `% 2^w` at every point where the Go
code casts or where a fixed-width field is written to the wire. -/

/-! ## core package write/read primitives -/

/-- Big-endian 16-bit write (`core.WriteUInt16BE`): high byte, then low byte. -/
def writeUInt16BE (v : Nat) : List Nat := [v / 256 % 256, v % 256]

/-- Little-endian 16-bit write (`core.WriteUInt16LE`): low byte, then high byte. -/
def writeUInt16LE (v : Nat) : List Nat := [v % 256, v / 256 % 256]

/-- Little-endian 32-bit write (`core.WriteUInt32LE`). -/
def writeUInt32LE (v : Nat) : List Nat :=
  [v % 256, v / 256 % 256, v / 65536 % 256, v / 16777216 % 256]

/-- Big-endian 16-bit read (`core.ReadUint16BE`) from the two delivered bytes. -/
def readUint16BE (hi lo : Nat) : Nat := hi * 256 + lo

/-! ## TPKT layer (transport framing) -/

def FASTPATH_ACTION_FASTPATH : Nat := 0x0

def FASTPATH_ACTION_X224 : Nat := 0x3

/-- Slow-path encoder `TPKT.Write` — tag byte 0x3, a zero byte, big-endian
16-bit `uint16(len(data)+4)`, then the payload. -/
def TPKT.Write (data : List Nat) : List Nat :=
  FASTPATH_ACTION_X224 :: 0 :: writeUInt16BE ((data.length + 4) % 65536) ++ data

/-- Fast-path encoder `TPKT.SendFastPath` — first byte
`FASTPATH_ACTION_FASTPATH | ((secFlag & 0x3) << 6)`, big-endian 16-bit
`uint16(len(data)+3) | 0x8000`, then the payload. -/
def TPKT.SendFastPath (secFlag : Nat) (data : List Nat) : List Nat :=
  (FASTPATH_ACTION_FASTPATH ||| ((secFlag &&& 0x3) <<< 6)) ::
    writeUInt16BE (((data.length + 3) % 65536) ||| 0x8000) ++ data

/-- Continuation states of the TPKT receive loop: each constructor is one of
the `core.StartReadBytes` completion callbacks of the source, holding the
data it closes over.  `halted` models "no read armed" (the empty `else`
branch of `recvHeader`, whose `StartReadBytes` call is commented out in the
source); `crashed` models `StartReadBytes` being handed a negative count
(`packetSize - 3 < 0`), which cannot allocate a buffer. -/
inductive TState
  | waitHeader
  | waitExtendedHeader
  | waitExtFastPathHeader (lengthByte : Nat)
  | waitData (n : Nat)
  | waitFastPath (n : Nat)
  | halted
  | crashed
deriving DecidableEq, Repr

/-- Events the TPKT layer surfaces upward: `Emit("data", s)` and
`fastPathListener.RecvFastPath(secFlag, s)`. -/
inductive TEvent
  | data (payload : List Nat)
  | fastPathData (secFlag : Nat) (payload : List Nat)
deriving DecidableEq, Repr

/-- Size of the read armed in each state (`none`: no read armed). -/
def pendingRead : TState → Option Nat
  | .waitHeader => some 2
  | .waitExtendedHeader => some 2
  | .waitExtFastPathHeader _ => some 1
  | .waitData n => some n
  | .waitFastPath n => some n
  | .halted => none
  | .crashed => none

/-- Result of one completion callback: next state, current security-flag
context, events emitted during the callback. -/
structure TpktOut where
  state : TState
  secFlag : Nat
  events : List TEvent
deriving DecidableEq, Repr

/-- One completion-callback step of the TPKT receive loop, fed exactly the
bytes the pending read asked for.  Mirrors `recvHeader`,
`recvExtendedHeader`, `recvExtendedFastPathHeader`, `recvData` and
`recvFastPath` of the source.  The slow-path body size is
`int(size - 4)` with the subtraction done on `uint16`, hence the
`+ 65532 ... % 65536`; the fast-path `length & ^0x80` (clear bit 7) is
modelled as `lengthByte - (lengthByte &&& 0x80)`, exact on naturals. -/
def tpktStep : TState → Nat → List Nat → TpktOut
  | .waitHeader, flag, [b0, b1] =>
    if b0 = FASTPATH_ACTION_X224 then ⟨.waitExtendedHeader, flag, []⟩
    else
      let f := (b0 >>> 6) &&& 0x3
      if b1 &&& 0x80 ≠ 0 then ⟨.waitExtFastPathHeader b1, f, []⟩
      else ⟨.halted, f, []⟩
  | .waitExtendedHeader, flag, [hi, lo] =>
    ⟨.waitData ((readUint16BE hi lo + 65532) % 65536), flag, []⟩
  | .waitExtFastPathHeader lengthByte, flag, [b2] =>
    let leftPart := lengthByte - (lengthByte &&& 0x80)
    let packetSize := (leftPart <<< 8) + b2
    if 3 ≤ packetSize then ⟨.waitFastPath (packetSize - 3), flag, []⟩
    else ⟨.crashed, flag, []⟩
  | .waitData _, flag, s => ⟨.waitHeader, flag, [.data s]⟩
  | .waitFastPath _, flag, s => ⟨.waitHeader, flag, [.fastPathData flag s]⟩
  | st, flag, _ => ⟨st, flag, []⟩

/-- Drive the receive loop on `stream`, delivering to each armed read exactly
the bytes it asked for; stops when no read is armed, when the stream cannot
fill the pending read (that read then stays pending forever), or when the
step fuel runs out.  Returns the events emitted. -/
def tpktRun : Nat → TState → Nat → List Nat → List TEvent
  | 0, _, _, _ => []
  | fuel + 1, st, flag, stream =>
    match pendingRead st with
    | none => []
    | some n =>
      if n ≤ stream.length then
        let o := tpktStep st flag (stream.take n)
        o.events ++ tpktRun fuel o.state o.secFlag (stream.drop n)
      else []

/-- The big-endian 16-bit length field of an encoded slow-path frame
(bytes 2 and 3 of the frame). -/
def slowLenField : List Nat → Nat
  | _ :: _ :: hi :: lo :: _ => readUint16BE hi lo
  | _ => 0

/-- A concrete slow-path payload of length 65532, the smallest length at
which `uint16(len(data) + 4)` wraps around.  Kept irreducible so that
definitional unfolding never walks the 65532 elements. -/
@[irreducible] def spPayload : List Nat := List.replicate 65532 0

/-- A concrete fast-path payload of length 32765 = 0x7FFD, the smallest
length at which `len(data) + 3` already has bit 0x8000 set.  Kept
irreducible so that definitional unfolding never walks the 32765
elements. -/
@[irreducible] def fpPayload : List Nat := List.replicate 32765 0

/-! ## x224 layer (connection automaton) -/

def TPDU_CONNECTION_REQUEST : Nat := 0xE0

def TPDU_CONNECTION_CONFIRM : Nat := 0xD0

def TYPE_RDP_NEG_REQ : Nat := 0x01

def TYPE_RDP_NEG_RSP : Nat := 0x02

def TYPE_RDP_NEG_FAILURE : Nat := 0x03

def PROTOCOL_RDP : Nat := 0x00000000

def PROTOCOL_SSL : Nat := 0x00000001

def PROTOCOL_HYBRID : Nat := 0x00000002

def PROTOCOL_HYBRID_EX : Nat := 0x00000008

/-- Negotiation sub-structure: 1-byte type, 1-byte flag, little-endian
uint16 length, little-endian uint32 result. -/
structure Negotiation where
  ntype : Nat
  flag : Nat
  length : Nat
  result : Nat
deriving DecidableEq, Repr

/-- Constructor `NewNegotiation`: type 0, flag 0, length the constant 0x0008, result
`PROTOCOL_RDP`. -/
def NewNegotiation : Negotiation := ⟨0, 0, 0x0008, PROTOCOL_RDP⟩

/-- Wire layout (`struc.Pack`) of `Negotiation`: byte, byte, uint16 little-endian,
uint32 little-endian (8 bytes). -/
def Negotiation.Serialize (n : Negotiation) : List Nat :=
  n.ntype % 256 :: n.flag % 256 ::
    writeUInt16LE (n.length % 65536) ++ writeUInt32LE (n.result % 4294967296)

/-- Decoder (`struc.Unpack`) of a `Negotiation` from received bytes; fails when fewer
than 8 bytes are available. -/
def parseNegotiation : List Nat → Option Negotiation
  | t :: f :: l0 :: l1 :: r0 :: r1 :: r2 :: r3 :: _ =>
    some ⟨t, f, l0 + 256 * l1, r0 + 256 * r1 + 65536 * r2 + 16777216 * r3⟩
  | _ => none

/-- X224 client connection request PDU.  The `len` field is a `uint8` in the
source; `NewClientConnectionRequestPDU` stores it already reduced mod 256. -/
structure ClientConnectionRequestPDU where
  len : Nat
  code : Nat
  padding1 : Nat
  padding2 : Nat
  padding3 : Nat
  cookie : List Nat
  protocolNeg : Negotiation
deriving DecidableEq, Repr

/-- Serialization of the request PDU (`Serialize`): length byte, code byte, three big-endian padding fields, the
cookie, a little-endian 0x0A0D marker when the length byte exceeds 14, then
the packed negotiation structure. -/
def ClientConnectionRequestPDU.Serialize (x : ClientConnectionRequestPDU) : List Nat :=
  x.len % 256 :: x.code % 256 ::
    writeUInt16BE (x.padding1 % 65536) ++ writeUInt16BE (x.padding2 % 65536) ++
    [x.padding3 % 256] ++ x.cookie ++
    (if 14 < x.len % 256 then writeUInt16LE 0x0A0D else []) ++
    x.protocolNeg.Serialize

/-- Constructor `NewClientConnectionRequestPDU`: builds the PDU with `Len = 0`, then sets
`Len = uint8(len(x.Serialize()) - 1)` — the serialization used to compute the
length is the one with `Len = 0`, so without the CR/LF marker. -/
def NewClientConnectionRequestPDU (coockie : List Nat) : ClientConnectionRequestPDU :=
  let x : ClientConnectionRequestPDU :=
    ⟨0, TPDU_CONNECTION_REQUEST, 0, 0, 0, coockie, NewNegotiation⟩
  { x with len := (x.Serialize.length - 1) % 256 }

/-- X224 server connection confirm (same header fields, no cookie). -/
structure ServerConnectionConfirm where
  len : Nat
  code : Nat
  padding1 : Nat
  padding2 : Nat
  padding3 : Nat
  protocolNeg : Negotiation
deriving DecidableEq, Repr

/-- Decoder (`struc.Unpack`) of `ServerConnectionConfirm` from the received frame:
byte, byte, uint16, uint16, byte, then the nested `Negotiation`; fails when
fewer than 15 bytes are available (trailing bytes are ignored). -/
def parseServerConnectionConfirm : List Nat → Option ServerConnectionConfirm
  | l :: c :: p1a :: p1b :: p2a :: p2b :: p3 :: t :: f :: l0 :: l1 :: r0 :: r1 :: r2 :: r3 :: _ =>
    some ⟨l, c, p1a * 256 + p1b, p2a * 256 + p2b, p3,
      ⟨t, f, l0 + 256 * l1, r0 + 256 * r1 + 65536 * r2 + 16777216 * r3⟩⟩
  | _ => none

/-- The part of the `X224` automaton state the confirm handler reads.  `New`
sets `requestedProtocol = PROTOCOL_SSL | PROTOCOL_HYBRID`,
`selectedProtocol = PROTOCOL_SSL`, `host = "0"`; no code path ever writes
`selectedProtocol` afterwards. -/
structure X224State where
  requestedProtocol : Nat
  selectedProtocol : Nat
  host : String
deriving DecidableEq, Repr

/-- Constructor `x224.New`. -/
def X224.New : X224State :=
  ⟨PROTOCOL_SSL ||| PROTOCOL_HYBRID, PROTOCOL_SSL, "0"⟩

/-- The negotiation structure sent by `X224.Connect`: `NewNegotiation` with
`Type = TYPE_RDP_NEG_REQ` and `Result = uint32(requestedProtocol)`; the
`Length` field is never touched. -/
def connectNegotiation (requestedProtocol : Nat) : Negotiation :=
  { NewNegotiation with
      ntype := TYPE_RDP_NEG_REQ
      result := requestedProtocol % 4294967296 }

/-- Observable side effects of one run of `recvConnectionConfirm`:
`findSuccess = some h` means both `savefile(h)` ran and the process-wide
`FindSuccess` variable was set to `h`; `dataArmed` means
`transport.On("data", recvData)` ran; `connectEmits` lists the payloads of
the `Emit("connect", ·)` calls in order. -/
structure ConfirmEffects where
  findSuccess : Option String
  dataArmed : Bool
  startTLSCalls : Nat
  startNLACalls : Nat
  connectEmits : List Nat
deriving DecidableEq, Repr

/-- Effects of a handler run that does nothing observable. -/
def noEffects : ConfirmEffects := ⟨none, false, 0, 0, []⟩

/-- Handler `recvConnectionConfirm`, with the automaton state it reads
(`selectedProtocol`, `host`) and the outcomes of the two external upgrade
calls (`tlsOk` for `Conn.StartTLS`, `nlaOk` for `Conn.StartNLA`) as
parameters; returns the side effects of the handler on the received
bytes `s`. -/
def recvConnectionConfirm (selectedProtocol : Nat) (host : String)
    (tlsOk nlaOk : Bool) (s : List Nat) : ConfirmEffects :=
  match parseServerConnectionConfirm s with
  | none => noEffects
  | some message =>
    if message.protocolNeg.ntype = TYPE_RDP_NEG_FAILURE then
      { noEffects with findSuccess := some host }
    else if message.protocolNeg.ntype = TYPE_RDP_NEG_RSP then
      { noEffects with findSuccess := some host }
    else if selectedProtocol = PROTOCOL_HYBRID_EX then
      noEffects
    else if selectedProtocol = PROTOCOL_RDP then
      { noEffects with dataArmed := true }
    else if selectedProtocol = PROTOCOL_SSL then
      { noEffects with
          dataArmed := true
          startTLSCalls := 1
          connectEmits := if tlsOk then [selectedProtocol] else [] }
    else if selectedProtocol = PROTOCOL_HYBRID then
      { noEffects with
          dataArmed := true
          startNLACalls := 1
          connectEmits := if nlaOk then [selectedProtocol] else [] }
    else
      { noEffects with dataArmed := true }

/-- Handler `x224.recvData`: emits `s[3:]`.  The Go slice expression panics when the
frame is shorter than 3 bytes, so the handler is partial: `none` models the
out-of-bounds slice. -/
def X224.recvData (s : List Nat) : Option (List Nat) :=
  if 3 ≤ s.length then some (s.drop 3) else none

/-- A concrete well-formed connection-confirm frame whose negotiation type is
`TYPE_RDP_NEG_REQ` (neither failure nor response). -/
def confirmReqBytes : List Nat :=
  [14, TPDU_CONNECTION_CONFIRM, 0, 0, 0, 0, 0, TYPE_RDP_NEG_REQ, 0, 8, 0, 1, 0, 0, 0]

/-- A concrete well-formed connection-confirm frame whose negotiation type is
`TYPE_RDP_NEG_FAILURE`. -/
def confirmFailureBytes : List Nat :=
  [14, TPDU_CONNECTION_CONFIRM, 0, 0, 0, 0, 0, TYPE_RDP_NEG_FAILURE, 0, 8, 0, 1, 0, 0, 0]

/-! ## sec layer (security handshake, license loop) -/

def INFO_PKT : Nat := 0x0040

def LICENSE_PKT : Nat := 0x0080

/-- Modelled from the spec: the license-packet variants of the `lic` package
(`lic.ReadLicensePacket`, `lic.NEW_LICENSE`, `lic.ERROR_ALERT`,
`lic.LICENSE_REQUEST`, `lic.PLATFORM_CHALLENGE` and the `ErrorMessage`
fields are not part of the shown source).  `errorAlert` carries the two
tests the handler makes on an error-alert message —
`DwErrorCode == STATUS_VALID_CLIENT` and
`DwStateTransaction == ST_NO_TRANSITION` — as abstract Booleans;
`unknownTag` is any message type outside the four recognized ones. -/
inductive LicensePacket
  | newLicense
  | errorAlert (validClient noTransition : Bool)
  | licenseRequest
  | platformChallenge
  | unknownTag (tag : Nat)
deriving DecidableEq, Repr

/-- Listener the sec client has armed on the "global" channel:
`onceLicense` is the one-shot `Once("global", recvLicenceInfo)`,
`persistentData` the persistent `On("global", recvData)` installed on
connect, `noListener` means nothing is armed (no further message is read). -/
inductive SecListen
  | onceLicense
  | persistentData
  | noListener
deriving DecidableEq, Repr

/-- Events the sec client emits upward. -/
inductive SecEvent
  | successEv
  | connectEv
  | errorEv
  | dataEv
deriving DecidableEq, Repr

/-- The client-response send routines `recvLicenceInfo` can invoke. -/
inductive ClientSend
  | newLicenseRequest
  | challengeResponse
deriving DecidableEq, Repr

/-- Routine `sendClientNewLicenseRequest`: in the source this routine only logs
"sec sendClientNewLicenseRequest todo" — it performs no transport write.
Its value is the list of byte strings it writes to the transport. -/
def sendClientNewLicenseRequest : List (List Nat) := []

/-- Routine `sendClientChallengeResponse`: in the source this routine only logs
"sec sendClientChallengeResponse todo" — it performs no transport write.
Its value is the list of byte strings it writes to the transport. -/
def sendClientChallengeResponse : List (List Nat) := []

/-- Result of one `recvLicenceInfo` delivery: the listener left armed, the
client-response send routines invoked, the byte strings actually written to
the transport, and the events emitted. -/
structure LicStepOut where
  listen : SecListen
  sends : List ClientSend
  writes : List (List Nat)
  events : List SecEvent
deriving DecidableEq, Repr

/-- Handler `recvLicenceInfo` on one delivered "global" message.  `secFlag` is the
`securityFlag` field of the security header already read from the bytes
(`readSecurityHeader`), `p` the license packet `lic.ReadLicensePacket`
decodes from the remainder.  Mirrors the switch of the source: a missing
`LICENSE_PKT` flag or an unrecognized tag emits one error and arms nothing;
`NEW_LICENSE` emits success then connect and installs the persistent data
listener; a valid-client no-transition `ERROR_ALERT` goes straight to
connect; every other recognized packet re-arms the one-shot listener, with
`LICENSE_REQUEST` and `PLATFORM_CHALLENGE` first invoking their (stub)
send routine. -/
def recvLicenceInfo (secFlag : Nat) (p : LicensePacket) : LicStepOut :=
  if secFlag &&& LICENSE_PKT = 0 then ⟨.noListener, [], [], [.errorEv]⟩
  else
    match p with
    | .newLicense => ⟨.persistentData, [], [], [.successEv, .connectEv]⟩
    | .errorAlert true true => ⟨.persistentData, [], [], [.connectEv]⟩
    | .errorAlert _ _ => ⟨.onceLicense, [], [], []⟩
    | .licenseRequest =>
      ⟨.onceLicense, [.newLicenseRequest], sendClientNewLicenseRequest, []⟩
    | .platformChallenge =>
      ⟨.onceLicense, [.challengeResponse], sendClientChallengeResponse, []⟩
    | .unknownTag _ => ⟨.noListener, [], [], [.errorEv]⟩

/-- Deliver a sequence of "global" messages to the sec client, starting from
the given armed listener: a one-shot listener consumes one message through
`recvLicenceInfo` and continues with whatever that run armed; the
persistent data listener forwards every further message upward as data;
with no listener armed, the remaining messages are never read.  Returns the
accumulated send-routine invocations, transport writes, and events. -/
def runLicense : SecListen → List (Nat × LicensePacket) →
    List ClientSend × List (List Nat) × List SecEvent
  | _, [] => ([], [], [])
  | .noListener, _ :: _ => ([], [], [])
  | .persistentData, _ :: rest =>
    let r := runLicense .persistentData rest
    (r.1, r.2.1, .dataEv :: r.2.2)
  | .onceLicense, (f, p) :: rest =>
    let o := recvLicenceInfo f p
    let r := runLicense o.listen rest
    (o.sends ++ r.1, o.writes ++ r.2.1, o.events ++ r.2.2)

/-! ## Helper lemmas -/

theorem and_three (n : Nat) : n &&& 3 = n % 4 := by
  have h := Nat.and_pow_two_sub_one_eq_mod n 2
  norm_num at h
  exact h

theorem and_127 (n : Nat) : n &&& 127 = n % 128 := by
  have h := Nat.and_pow_two_sub_one_eq_mod n 7
  norm_num at h
  exact h

theorem add128_and128 (t : Nat) (ht : t < 128) : (128 + t) &&& 128 = 128 := by
  have h7 : Nat.testBit t 7 = false := Nat.testBit_lt_two_pow (by norm_num; omega)
  have he : ((128 : Nat) + t) &&& 128 = ((2 : Nat) ^ 7 + t) &&& 2 ^ 7 := by norm_num
  rw [he, Nat.and_two_pow, Nat.testBit_two_pow_add_eq, h7]
  norm_num

theorem and128_lt (b : Nat) (hb : b < 128) : b &&& 128 = 0 := by
  have h7 : Nat.testBit b 7 = false := Nat.testBit_lt_two_pow (by norm_num; omega)
  have he : b &&& 128 = b &&& 2 ^ 7 := by norm_num
  rw [he, Nat.and_two_pow, h7]
  norm_num

theorem sub_and128_eq_and127 (b : Nat) (hb : b < 256) : b - (b &&& 128) = b &&& 127 := by
  rw [and_127]
  rcases Nat.lt_or_ge b 128 with h | h
  · rw [and128_lt b h]
    omega
  · obtain ⟨t, rfl⟩ : ∃ t, b = 128 + t := ⟨b - 128, by omega⟩
    rw [add128_and128 t (by omega)]
    omega

theorem or_32768 (a : Nat) (ha : a < 32768) : a ||| 32768 = 32768 + a := by
  have h15 : (2 : Nat) ^ 15 = 32768 := by norm_num
  have h := Nat.mul_add_lt_is_or (a := 1) (b := a) (i := 15) (by rw [h15]; exact ha)
  rw [Nat.or_comm]
  calc (32768 : Nat) ||| a = 2 ^ 15 * 1 ||| a := by norm_num
    _ = 2 ^ 15 * 1 + a := h.symm
    _ = 32768 + a := by norm_num

theorem spPayload_length : spPayload.length = 65532 := by
  delta spPayload
  exact List.length_replicate 65532 0

theorem fpPayload_length : fpPayload.length = 32765 := by
  delta fpPayload
  exact List.length_replicate 32765 0

theorem tpktRun_step (fuel : Nat) (st : TState) (flag : Nat) (stream : List Nat) (n : Nat)
    (st2 : TState) (flag2 : Nat) (evs : List TEvent) (rest : List Nat)
    (hn : pendingRead st = some n) (hs : n ≤ stream.length)
    (hstep : tpktStep st flag (stream.take n) = ⟨st2, flag2, evs⟩)
    (hrest : stream.drop n = rest) :
    tpktRun (fuel + 1) st flag stream = evs ++ tpktRun fuel st2 flag2 rest := by
  simp only [tpktRun, hn]
  rw [if_pos hs, hstep, hrest]

theorem tpktRun_step_quiet (fuel : Nat) (st : TState) (flag : Nat) (stream : List Nat) (n : Nat)
    (st2 : TState) (flag2 : Nat) (rest : List Nat)
    (hn : pendingRead st = some n) (hs : n ≤ stream.length)
    (hstep : tpktStep st flag (stream.take n) = ⟨st2, flag2, []⟩)
    (hrest : stream.drop n = rest) :
    tpktRun (fuel + 1) st flag stream = tpktRun fuel st2 flag2 rest := by
  rw [tpktRun_step fuel st flag stream n st2 flag2 [] rest hn hs hstep hrest]
  rw [List.nil_append]

theorem tpktRun_zero (st : TState) (flag : Nat) (stream : List Nat) :
    tpktRun 0 st flag stream = [] := rfl

theorem tpktRun_noRead (fuel : Nat) (st : TState) (flag : Nat) (stream : List Nat)
    (hn : pendingRead st = none) : tpktRun fuel st flag stream = [] := by
  cases fuel with
  | zero => rfl
  | succ f => simp only [tpktRun, hn]

theorem tpktRun_starved (fuel : Nat) (st : TState) (flag : Nat) (stream : List Nat) (n : Nat)
    (hn : pendingRead st = some n) (hs : stream.length < n) :
    tpktRun (fuel + 1) st flag stream = [] := by
  simp only [tpktRun, hn]
  rw [if_neg (by omega)]

/-! ## Claim theorems -/

/-- C6 (amended): for every payload whose length + 4 fits in 16 bits, the
slow-path encoder emits tag 0x3, a zero byte, and a big-endian 16-bit
length field equal to payload length + 4; the receive loop decodes the
frame back to exactly the payload; and the slow-path body read is the
length field minus 4 bytes.  (The original claim quantified over every
payload; at length 65532 the 16-bit field wraps to 0, see the
counterexample.) -/
theorem slowPath_roundtrip (d : List Nat) (h : d.length + 4 < 65536) :
    TPKT.Write d = 3 :: 0 :: writeUInt16BE (d.length + 4) ++ d ∧
    slowLenField (TPKT.Write d) = d.length + 4 ∧
    tpktRun 4 .waitHeader 0 (TPKT.Write d) = [.data d] ∧
    (∀ hi lo fl : Nat, 4 ≤ readUint16BE hi lo → readUint16BE hi lo < 65536 →
      tpktStep .waitExtendedHeader fl [hi, lo] =
        ⟨.waitData (readUint16BE hi lo - 4), fl, []⟩) := by
  have harith : ((d.length + 4) / 256 % 256 * 256 + ((d.length + 4) % 256) + 65532) % 65536
      = d.length := by omega
  have henc : TPKT.Write d
      = 3 :: 0 :: ((d.length + 4) / 256 % 256) :: ((d.length + 4) % 256) :: d := by
    simp [TPKT.Write, FASTPATH_ACTION_X224, Nat.mod_eq_of_lt h, writeUInt16BE]
  refine ⟨by rw [henc]; simp [writeUInt16BE], ?_, ?_, ?_⟩
  · rw [henc]
    simp only [slowLenField, readUint16BE]
    omega
  · rw [henc]
    rw [tpktRun_step_quiet 3 .waitHeader 0
      (3 :: 0 :: ((d.length + 4) / 256 % 256) :: ((d.length + 4) % 256) :: d) 2
      .waitExtendedHeader 0
      (((d.length + 4) / 256 % 256) :: ((d.length + 4) % 256) :: d) rfl (by simp) rfl rfl]
    rw [tpktRun_step_quiet 2 .waitExtendedHeader 0
      (((d.length + 4) / 256 % 256) :: ((d.length + 4) % 256) :: d) 2 (.waitData d.length) 0 d
      rfl (by simp)
      (by simp only [List.take_succ_cons, List.take_zero, tpktStep, readUint16BE]
          rw [harith])
      rfl]
    rw [tpktRun_step 1 (.waitData d.length) 0 d d.length .waitHeader 0 [.data d] [] rfl
      (by simp)
      (by rw [List.take_length]
          simp only [tpktStep])
      (List.drop_length d)]
    rw [tpktRun_starved 0 .waitHeader 0 [] 2 rfl (by simp)]
    rfl
  · intro hi lo fl h4 h16
    simp only [tpktStep]
    rw [show (readUint16BE hi lo + 65532) % 65536 = readUint16BE hi lo - 4 by
      simp only [readUint16BE] at h4 h16 ⊢
      omega]

/-- C6 witness: the amended theorem at the payload [9, 9], whose encoded
frame is 3, 0, 0, 6, 9, 9 with length field 6 = 2 + 4. -/
theorem slowPath_roundtrip_witness :
    TPKT.Write [9, 9] = 3 :: 0 :: writeUInt16BE (2 + 4) ++ [9, 9] ∧
    slowLenField (TPKT.Write [9, 9]) = 2 + 4 ∧
    tpktRun 4 .waitHeader 0 (TPKT.Write [9, 9]) = [.data [9, 9]] ∧
    (∀ hi lo fl : Nat, 4 ≤ readUint16BE hi lo → readUint16BE hi lo < 65536 →
      tpktStep .waitExtendedHeader fl [hi, lo] =
        ⟨.waitData (readUint16BE hi lo - 4), fl, []⟩) :=
  slowPath_roundtrip [9, 9] (by decide)

/-- C6 counterexample: at the concrete payload of length 65532 the encoded
big-endian 16-bit length field is 0, not payload length + 4 = 65536 — the
claim does not hold for every payload. -/
theorem slowPath_lengthField_counterexample :
    spPayload = List.replicate 65532 0 ∧
    slowLenField (TPKT.Write spPayload) ≠ spPayload.length + 4 := by
  constructor
  · delta spPayload
    rfl
  · have henc : TPKT.Write spPayload = 3 :: 0 :: 0 :: 0 :: spPayload := by
      rw [TPKT.Write, spPayload_length]
      rfl
    rw [henc, spPayload_length]
    simp only [show slowLenField (3 :: 0 :: 0 :: 0 :: spPayload) = 0 from rfl]
    decide

/-- C5 (amended): for every 2-bit security-flag value and every payload with
length + 3 < 0x8000, the fast-path encoder emits a first byte carrying the
security flags in bits 6–7 and a big-endian 16-bit length equal to
(payload length + 3) with bit 0x8000 forced set; the receive loop decodes
the frame back to exactly the flags and payload; and the extended-length
decode path computes the body size as ((first length byte & 0x7F) << 8) +
second length byte − 3.  (The original claim allowed payload lengths up to
0x7FFE; at length 0x7FFD = 32765 the value len + 3 already has bit 0x8000
set, the computed packet size becomes 0, and decoding crashes — see the
counterexample.) -/
theorem fastPath_roundtrip (f : Nat) (d : List Nat) (hf : f < 4) (h : d.length + 3 < 0x8000) :
    TPKT.SendFastPath f d
      = ((f &&& 3) <<< 6) :: writeUInt16BE ((d.length + 3) ||| 0x8000) ++ d ∧
    tpktRun 4 .waitHeader 0 (TPKT.SendFastPath f d) = [.fastPathData f d] ∧
    (∀ b1 b2 fl : Nat, b1 < 256 → 3 ≤ ((b1 &&& 0x7F) <<< 8) + b2 →
      tpktStep (.waitExtFastPathHeader b1) fl [b2] =
        ⟨.waitFastPath (((b1 &&& 0x7F) <<< 8) + b2 - 3), fl, []⟩) := by
  have hv : ((d.length + 3) % 65536) ||| 32768 = 32768 + (d.length + 3) := by
    rw [Nat.mod_eq_of_lt (by omega)]; exact or_32768 _ h
  have hb0 : FASTPATH_ACTION_FASTPATH ||| ((f &&& 3) <<< 6) = f * 64 := by
    rw [and_three, Nat.mod_eq_of_lt hf, Nat.shiftLeft_eq, FASTPATH_ACTION_FASTPATH]
    norm_num [Nat.zero_or]
  have hhi : (32768 + (d.length + 3)) / 256 % 256 = 128 + (d.length + 3) / 256 := by omega
  have hlo : (32768 + (d.length + 3)) % 256 = (d.length + 3) % 256 := by omega
  have ht : (d.length + 3) / 256 < 128 := by omega
  have hand : (128 + (d.length + 3) / 256) &&& 128 = 128 := add128_and128 _ ht
  have hne : f * 64 ≠ FASTPATH_ACTION_X224 := by
    rw [FASTPATH_ACTION_X224]; omega
  have hflag : ((f * 64) >>> 6) &&& 3 = f := by
    rw [Nat.shiftRight_eq_div_pow, and_three]
    norm_num
    omega
  have henc : TPKT.SendFastPath f d
      = (f * 64) :: (128 + (d.length + 3) / 256) :: ((d.length + 3) % 256) :: d := by
    simp only [TPKT.SendFastPath, writeUInt16BE, hv, hb0, hhi, hlo, List.cons_append,
      List.nil_append]
  refine ⟨?_, ?_, ?_⟩
  · rw [henc]
    have hb0x : ((f &&& 3) <<< 6) = f * 64 := by
      rw [and_three, Nat.mod_eq_of_lt hf, Nat.shiftLeft_eq]
    rw [or_32768 _ h]
    simp only [writeUInt16BE, hb0x, hhi, hlo, List.cons_append, List.nil_append]
  · rw [henc]
    rw [tpktRun_step_quiet 3 .waitHeader 0
      ((f * 64) :: (128 + (d.length + 3) / 256) :: ((d.length + 3) % 256) :: d) 2
      (.waitExtFastPathHeader (128 + (d.length + 3) / 256)) f
      (((d.length + 3) % 256) :: d) rfl (by simp)
      (by simp only [List.take_succ_cons, List.take_zero, tpktStep]
          rw [if_neg hne, if_pos (by rw [hand]; omega), hflag])
      rfl]
    rw [tpktRun_step_quiet 2 (.waitExtFastPathHeader (128 + (d.length + 3) / 256)) f
      (((d.length + 3) % 256) :: d) 1
      (.waitFastPath d.length) f d rfl (by simp)
      (by simp only [List.take_succ_cons, List.take_zero, tpktStep, Nat.shiftLeft_eq, hand]
          rw [if_pos (by omega)]
          have hsz : (128 + (d.length + 3) / 256 - 128) * 2 ^ 8 + (d.length + 3) % 256 - 3
              = d.length := by omega
          rw [hsz])
      rfl]
    rw [tpktRun_step 1 (.waitFastPath d.length) f d d.length .waitHeader f
      [.fastPathData f d] [] rfl (by simp)
      (by rw [List.take_length]
          simp only [tpktStep])
      (List.drop_length d)]
    rw [tpktRun_starved 0 .waitHeader f [] 2 rfl (by simp)]
    rfl
  · intro b1 b2 fl hb1 h3
    simp only [tpktStep]
    rw [sub_and128_eq_and127 b1 hb1]
    rw [if_pos h3]

/-- C5 witness: the amended theorem at security flag 2 and payload
[7, 7, 7]. -/
theorem fastPath_roundtrip_witness :
    TPKT.SendFastPath 2 [7, 7, 7]
      = ((2 &&& 3) <<< 6) :: writeUInt16BE ((3 + 3) ||| 0x8000) ++ [7, 7, 7] ∧
    tpktRun 4 .waitHeader 0 (TPKT.SendFastPath 2 [7, 7, 7]) = [.fastPathData 2 [7, 7, 7]] ∧
    (∀ b1 b2 fl : Nat, b1 < 256 → 3 ≤ ((b1 &&& 0x7F) <<< 8) + b2 →
      tpktStep (.waitExtFastPathHeader b1) fl [b2] =
        ⟨.waitFastPath (((b1 &&& 0x7F) <<< 8) + b2 - 3), fl, []⟩) :=
  fastPath_roundtrip 2 [7, 7, 7] (by decide) (by decide)

/-- C5 counterexample: at the concrete payload of length 0x7FFD = 32765 —
which satisfies the claim's bound length < 0x7FFF — the receive loop
decodes the encoded frame to no event at all (the computed packet size is
0, so the body read count 0 − 3 is negative), instead of returning the
flags and payload. -/
theorem fastPath_roundtrip_counterexample :
    fpPayload = List.replicate 32765 0 ∧
    fpPayload.length < 0x7FFF ∧
    tpktRun 4 .waitHeader 0 (TPKT.SendFastPath 0 fpPayload) = [] ∧
    ([] : List TEvent) ≠ [TEvent.fastPathData 0 fpPayload] := by
  refine ⟨by delta fpPayload; rfl, by rw [fpPayload_length]; decide, ?_, by decide⟩
  have henc : TPKT.SendFastPath 0 fpPayload = 0 :: 128 :: 0 :: fpPayload := by
    rw [TPKT.SendFastPath, fpPayload_length]
    rfl
  rw [henc]
  rw [tpktRun_step_quiet 3 .waitHeader 0 (0 :: 128 :: 0 :: fpPayload) 2
    (.waitExtFastPathHeader 128) 0 (0 :: fpPayload)
    rfl
    (by rw [List.length_cons, List.length_cons, List.length_cons, fpPayload_length]; omega)
    (by decide)
    rfl]
  rw [tpktRun_step_quiet 2 (.waitExtFastPathHeader 128) 0 (0 :: fpPayload) 1 .crashed 0 fpPayload
    rfl
    (by rw [List.length_cons, fpPayload_length]; omega)
    (by decide)
    rfl]
  rw [tpktRun_noRead 2 .crashed 0 fpPayload rfl]

/-- C7: on a fast-path header whose second byte has the 0x80 extended-length
bit clear, the header callback moves to the halted state, emits nothing,
arms no read, and the receive loop produces nothing more from any further
stream with any fuel — the short-length body read is commented out in the
source. -/
theorem fastPath_short_length_no_read (flag b0 b1 : Nat)
    (h0 : b0 ≠ FASTPATH_ACTION_X224) (h1 : b1 &&& 0x80 = 0) :
    (tpktStep .waitHeader flag [b0, b1]).state = .halted ∧
    (tpktStep .waitHeader flag [b0, b1]).events = [] ∧
    pendingRead (tpktStep .waitHeader flag [b0, b1]).state = none ∧
    (∀ (fuel flag2 : Nat) (rest : List Nat),
      tpktRun fuel (tpktStep .waitHeader flag [b0, b1]).state flag2 rest = []) := by
  have hs : tpktStep .waitHeader flag [b0, b1] = ⟨.halted, (b0 >>> 6) &&& 0x3, []⟩ := by
    simp [tpktStep, h0, h1]
  refine ⟨by rw [hs], by rw [hs], by rw [hs]; rfl, ?_⟩
  intro fuel flag2 rest
  rw [hs]
  exact tpktRun_noRead fuel .halted flag2 rest rfl

/-- C7 witness: header bytes 0x00, 0x05 — not the X224 tag, extended-length
bit clear — leave the loop halted with no pending read. -/
theorem fastPath_short_length_no_read_witness :
    ((0 : Nat) ≠ FASTPATH_ACTION_X224) ∧ ((5 : Nat) &&& 0x80 = 0) ∧
    (tpktStep .waitHeader 0 [0, 5]).state = .halted ∧
    pendingRead (tpktStep .waitHeader 0 [0, 5]).state = none :=
  ⟨by decide, by decide, (fastPath_short_length_no_read 0 0 5 (by decide) (by decide)).1,
    (fastPath_short_length_no_read 0 0 5 (by decide) (by decide)).2.2.1⟩

/-- C10: the x224 post-connect data handler emits exactly the frame minus
its first 3 bytes for every inbound frame of length at least 3, and is
undefined (out-of-bounds slice) on every shorter frame. -/
theorem recvData_strips_three_bytes :
    (∀ s : List Nat, 3 ≤ s.length → X224.recvData s = some (s.drop 3)) ∧
    (∀ s : List Nat, s.length < 3 → X224.recvData s = none) := by
  constructor
  · intro s h
    simp only [X224.recvData]
    rw [if_pos h]
  · intro s h
    simp only [X224.recvData]
    rw [if_neg (by omega)]

/-- C10 witness: a 4-byte frame loses its first 3 bytes; a 2-byte frame is
out of bounds. -/
theorem recvData_strips_three_bytes_witness :
    X224.recvData [1, 2, 3, 4] = some [4] ∧ X224.recvData [1, 2] = none :=
  ⟨recvData_strips_three_bytes.1 [1, 2, 3, 4] (by decide),
    recvData_strips_three_bytes.2 [1, 2] (by decide)⟩

/-- C3: on a parsed Connection Confirm whose negotiation type is Failure or
Response, the handler records the peer host (result file plus the
process-wide FindSuccess variable) and returns without any upgrade call,
without arming the data listener, and without emitting a connect event. -/
theorem confirm_failure_or_response_records_host (sel : Nat) (host : String)
    (tlsOk nlaOk : Bool) (s : List Nat) (m : ServerConnectionConfirm)
    (hp : parseServerConnectionConfirm s = some m)
    (ht : m.protocolNeg.ntype = TYPE_RDP_NEG_FAILURE ∨
      m.protocolNeg.ntype = TYPE_RDP_NEG_RSP) :
    recvConnectionConfirm sel host tlsOk nlaOk s =
      { findSuccess := some host, dataArmed := false, startTLSCalls := 0,
        startNLACalls := 0, connectEmits := [] } := by
  rcases ht with h | h
  · simp [recvConnectionConfirm, hp, h, noEffects, TYPE_RDP_NEG_FAILURE]
  · simp [recvConnectionConfirm, hp, h, noEffects, TYPE_RDP_NEG_FAILURE, TYPE_RDP_NEG_RSP]

/-- C3 witness: the concrete failure confirm records the host and does
nothing else. -/
theorem confirm_failure_or_response_records_host_witness :
    recvConnectionConfirm PROTOCOL_SSL "192.0.2.7" true true confirmFailureBytes =
      { findSuccess := some "192.0.2.7", dataArmed := false, startTLSCalls := 0,
        startNLACalls := 0, connectEmits := [] } :=
  confirm_failure_or_response_records_host PROTOCOL_SSL "192.0.2.7" true true
    confirmFailureBytes ⟨14, 0xD0, 0, 0, 0, ⟨3, 0, 8, 1⟩⟩ (by decide) (Or.inl (by decide))

/-- C9: the automaton stores selectedProtocol = TLS at construction, and the
confirm handler consults only the received negotiation type, never the
received result/protocol bitmask: two successfully parsed confirms with the
same type (neither Failure nor Response) produce identical effects whatever
their other bytes. -/
theorem confirm_ignores_server_selected_protocol :
    X224.New.selectedProtocol = PROTOCOL_SSL ∧
    (∀ (sel : Nat) (host : String) (tlsOk nlaOk : Bool) (s1 s2 : List Nat)
      (m1 m2 : ServerConnectionConfirm),
      parseServerConnectionConfirm s1 = some m1 →
      parseServerConnectionConfirm s2 = some m2 →
      m1.protocolNeg.ntype = m2.protocolNeg.ntype →
      m1.protocolNeg.ntype ≠ TYPE_RDP_NEG_FAILURE →
      m1.protocolNeg.ntype ≠ TYPE_RDP_NEG_RSP →
      recvConnectionConfirm sel host tlsOk nlaOk s1 =
        recvConnectionConfirm sel host tlsOk nlaOk s2) := by
  refine ⟨rfl, ?_⟩
  intro sel host tlsOk nlaOk s1 s2 m1 m2 hp1 hp2 htype hf hr
  simp only [recvConnectionConfirm, hp1, hp2, htype]

/-- C9 witness: two confirms differing in the result bitmask (1 versus 3)
with the same negotiation type produce the same effects. -/
theorem confirm_ignores_server_selected_protocol_witness :
    X224.New.selectedProtocol = PROTOCOL_SSL ∧
    recvConnectionConfirm PROTOCOL_SSL "192.0.2.7" true true
        [14, 0xD0, 0, 0, 0, 0, 0, 1, 0, 8, 0, 1, 0, 0, 0] =
      recvConnectionConfirm PROTOCOL_SSL "192.0.2.7" true true
        [14, 0xD0, 0, 0, 0, 0, 0, 1, 0, 8, 0, 3, 0, 0, 0] :=
  ⟨confirm_ignores_server_selected_protocol.1,
    confirm_ignores_server_selected_protocol.2 PROTOCOL_SSL "192.0.2.7" true true _ _
      ⟨14, 0xD0, 0, 0, 0, ⟨1, 0, 8, 1⟩⟩ ⟨14, 0xD0, 0, 0, 0, ⟨1, 0, 8, 3⟩⟩
      (by decide) (by decide) (by decide) (by decide) (by decide)⟩

/-- C1 (amended): on a parsed confirm whose negotiation type is neither
Failure nor Response — with TLS selected, exactly one StartTLS call, no NLA
call, and one connect event carrying the TLS value exactly when the upgrade
succeeds; with Hybrid selected, exactly one StartNLA call, no TLS call, and
one connect event exactly when the upgrade succeeds; with standard RDP
security selected, neither upgrade call, the data listener armed, and no
connect event at all.  (The original claim said a connect event is still
emitted for standard RDP security; the handler returns without emitting
one — see the counterexample.) -/
theorem confirm_security_mode_effects (host : String) (tlsOk nlaOk : Bool)
    (s : List Nat) (m : ServerConnectionConfirm)
    (hp : parseServerConnectionConfirm s = some m)
    (hf : m.protocolNeg.ntype ≠ TYPE_RDP_NEG_FAILURE)
    (hr : m.protocolNeg.ntype ≠ TYPE_RDP_NEG_RSP) :
    ((recvConnectionConfirm PROTOCOL_SSL host tlsOk nlaOk s).startTLSCalls = 1 ∧
      (recvConnectionConfirm PROTOCOL_SSL host tlsOk nlaOk s).startNLACalls = 0 ∧
      (recvConnectionConfirm PROTOCOL_SSL host tlsOk nlaOk s).connectEmits =
        (if tlsOk then [PROTOCOL_SSL] else []) ∧
      (recvConnectionConfirm PROTOCOL_SSL host tlsOk nlaOk s).dataArmed = true) ∧
    ((recvConnectionConfirm PROTOCOL_HYBRID host tlsOk nlaOk s).startNLACalls = 1 ∧
      (recvConnectionConfirm PROTOCOL_HYBRID host tlsOk nlaOk s).startTLSCalls = 0 ∧
      (recvConnectionConfirm PROTOCOL_HYBRID host tlsOk nlaOk s).connectEmits =
        (if nlaOk then [PROTOCOL_HYBRID] else []) ∧
      (recvConnectionConfirm PROTOCOL_HYBRID host tlsOk nlaOk s).dataArmed = true) ∧
    ((recvConnectionConfirm PROTOCOL_RDP host tlsOk nlaOk s).startTLSCalls = 0 ∧
      (recvConnectionConfirm PROTOCOL_RDP host tlsOk nlaOk s).startNLACalls = 0 ∧
      (recvConnectionConfirm PROTOCOL_RDP host tlsOk nlaOk s).connectEmits = [] ∧
      (recvConnectionConfirm PROTOCOL_RDP host tlsOk nlaOk s).dataArmed = true) := by
  simp [recvConnectionConfirm, hp, hf, hr, noEffects, PROTOCOL_SSL, PROTOCOL_HYBRID,
    PROTOCOL_RDP, PROTOCOL_HYBRID_EX]

/-- C1 witness: the amended theorem at a concrete confirm with negotiation
type 1. -/
theorem confirm_security_mode_effects_witness :
    (recvConnectionConfirm PROTOCOL_SSL "192.0.2.7" true true confirmReqBytes).startTLSCalls
        = 1 ∧
    (recvConnectionConfirm PROTOCOL_HYBRID "192.0.2.7" true true confirmReqBytes).startNLACalls
        = 1 ∧
    (recvConnectionConfirm PROTOCOL_RDP "192.0.2.7" true true confirmReqBytes).connectEmits
        = [] :=
  ⟨(confirm_security_mode_effects "192.0.2.7" true true confirmReqBytes
      ⟨14, 0xD0, 0, 0, 0, ⟨1, 0, 8, 1⟩⟩ (by decide) (by decide) (by decide)).1.1,
    (confirm_security_mode_effects "192.0.2.7" true true confirmReqBytes
      ⟨14, 0xD0, 0, 0, 0, ⟨1, 0, 8, 1⟩⟩ (by decide) (by decide) (by decide)).2.1.1,
    (confirm_security_mode_effects "192.0.2.7" true true confirmReqBytes
      ⟨14, 0xD0, 0, 0, 0, ⟨1, 0, 8, 1⟩⟩ (by decide) (by decide) (by decide)).2.2.2.2.1⟩

/-- C1 counterexample: on a well-formed confirm whose negotiation type is
neither Failure nor Response, with standard RDP security selected, the
handler makes neither upgrade call and emits no connect event — the claim
says a connect event is still emitted. -/
theorem confirm_rdp_no_connect_counterexample :
    (parseServerConnectionConfirm confirmReqBytes).isSome = true ∧
    (recvConnectionConfirm PROTOCOL_RDP "192.0.2.7" true true confirmReqBytes).startTLSCalls
        = 0 ∧
    (recvConnectionConfirm PROTOCOL_RDP "192.0.2.7" true true confirmReqBytes).startNLACalls
        = 0 ∧
    (recvConnectionConfirm PROTOCOL_RDP "192.0.2.7" true true confirmReqBytes).connectEmits
        = [] := by
  decide

/-- C2 behavior: feeding PlatformChallenge, LicenseRequest, NewLicense (all
carrying the LICENSE_PKT flag) invokes the two client-response send
routines in order, writes nothing to the transport (both routines are todo
stubs), and emits success then connect with no error; an unrecognized tag
at a listening point emits exactly one error and arms no further listener,
so the rest of the sequence is never read. -/
theorem license_loop_behavior (f1 f2 f3 : Nat)
    (h1 : f1 &&& LICENSE_PKT ≠ 0) (h2 : f2 &&& LICENSE_PKT ≠ 0)
    (h3 : f3 &&& LICENSE_PKT ≠ 0) :
    runLicense .onceLicense
        [(f1, .platformChallenge), (f2, .licenseRequest), (f3, .newLicense)] =
      ([.challengeResponse, .newLicenseRequest], [], [.successEv, .connectEv]) ∧
    (∀ (f tag : Nat) (rest : List (Nat × LicensePacket)), f &&& LICENSE_PKT ≠ 0 →
      runLicense .onceLicense ((f, .unknownTag tag) :: rest) = ([], [], [.errorEv])) := by
  constructor
  · simp [runLicense, recvLicenceInfo, h1, h2, h3, sendClientNewLicenseRequest,
      sendClientChallengeResponse]
  · intro f tag rest hf
    cases rest with
    | nil => simp [runLicense, recvLicenceInfo, hf]
    | cons a l => simp [runLicense, recvLicenceInfo, hf]

/-- C2 witness: the license sequence with flag 0x80 — two send-routine
invocations, zero transport writes, success and connect events. -/
theorem license_loop_behavior_witness :
    ((0x80 : Nat) &&& LICENSE_PKT ≠ 0) ∧
    runLicense .onceLicense
        [(0x80, .platformChallenge), (0x80, .licenseRequest), (0x80, .newLicense)] =
      ([.challengeResponse, .newLicenseRequest], [], [.successEv, .connectEv]) :=
  ⟨by decide,
    (license_loop_behavior 0x80 0x80 0x80 (by decide) (by decide) (by decide)).1⟩

/-- Helper: the connection request PDU built by the constructor — the length
byte is (15 + cookie length − 1) mod 256, computed from a serialization
without the CR/LF marker since the length field was still zero. -/
theorem newClientConnectionRequestPDU_eq (coockie : List Nat) :
    NewClientConnectionRequestPDU coockie =
      ⟨(14 + coockie.length) % 256, TPDU_CONNECTION_REQUEST, 0, 0, 0, coockie,
        NewNegotiation⟩ := by
  simp only [NewClientConnectionRequestPDU, ClientConnectionRequestPDU.Serialize,
    Negotiation.Serialize, NewNegotiation, writeUInt16BE, writeUInt16LE, writeUInt32LE,
    TPDU_CONNECTION_REQUEST, PROTOCOL_RDP]
  norm_num
  congr 1
  omega

/-- C4 (amended): for a cookie of length L (L at most 241 so the uint8
length byte does not wrap), the length byte equals (6 + L + 8 + 1) − 1, the
serialization carries the CR/LF marker exactly when L > 0 (equivalently,
length byte > 14), and the total serialized size is length byte + 1 when
L = 0 but length byte + 3 when L > 0: the marker is appended after the
length byte was computed, so the length byte is not serialized-size-minus-
one on non-empty cookies — see the counterexample. -/
theorem connectionRequest_serialization (coockie : List Nat) (h : coockie.length ≤ 241) :
    (NewClientConnectionRequestPDU coockie).len = 6 + coockie.length + 8 + 1 - 1 ∧
    (NewClientConnectionRequestPDU coockie).Serialize =
      (14 + coockie.length) :: TPDU_CONNECTION_REQUEST :: 0 :: 0 :: 0 :: 0 :: 0 ::
        coockie ++ ((if 0 < coockie.length then [0x0D, 0x0A] else []) ++
          NewNegotiation.Serialize) ∧
    (14 < (NewClientConnectionRequestPDU coockie).len ↔ 0 < coockie.length) ∧
    (NewClientConnectionRequestPDU coockie).Serialize.length =
      (if 0 < coockie.length then (NewClientConnectionRequestPDU coockie).len + 3
        else (NewClientConnectionRequestPDU coockie).len + 1) := by
  have he := newClientConnectionRequestPDU_eq coockie
  have hm : (14 + coockie.length) % 256 = 14 + coockie.length :=
    Nat.mod_eq_of_lt (by omega)
  refine ⟨?_, ?_, ?_, ?_⟩
  · rw [he]
    show (14 + coockie.length) % 256 = 6 + coockie.length + 8 + 1 - 1
    omega
  · rw [he]
    simp only [ClientConnectionRequestPDU.Serialize, hm]
    rcases Nat.eq_zero_or_pos coockie.length with h0 | h0
    · rw [if_neg (by omega), if_neg (by omega)]
      simp [writeUInt16BE, TPDU_CONNECTION_REQUEST]
    · rw [if_pos (by omega), if_pos h0]
      simp [writeUInt16BE, writeUInt16LE, TPDU_CONNECTION_REQUEST]
  · rw [he]
    show 14 < (14 + coockie.length) % 256 ↔ 0 < coockie.length
    omega
  · rw [he]
    simp only [ClientConnectionRequestPDU.Serialize, hm, Negotiation.Serialize,
      NewNegotiation, writeUInt16BE, writeUInt16LE, writeUInt32LE]
    rcases Nat.eq_zero_or_pos coockie.length with h0 | h0
    · rw [if_neg (by omega), if_neg (by omega)]
      simp [List.length_append]
      omega
    · rw [if_pos (by omega), if_pos h0]
      simp [List.length_append]
      omega

/-- C4 witness: with the empty cookie (the one the automaton actually
sends), the length byte is 14 and the serialization is the 15-byte frame
with no CR/LF marker. -/
theorem connectionRequest_serialization_witness :
    (NewClientConnectionRequestPDU []).len = 6 + 0 + 8 + 1 - 1 ∧
    (14 < (NewClientConnectionRequestPDU []).len ↔ 0 < ([] : List Nat).length) ∧
    (NewClientConnectionRequestPDU []).Serialize.length =
      (NewClientConnectionRequestPDU []).len + 1 :=
  ⟨(connectionRequest_serialization [] (by decide)).1,
    (connectionRequest_serialization [] (by decide)).2.2.1,
    by
      have h4 := (connectionRequest_serialization [] (by decide)).2.2.2
      simpa using h4⟩

/-- C4 counterexample: with a cookie of length 1 the length byte is 15 but
the serialization has 18 bytes — the length byte is not the total
serialized size minus one, because the CR/LF marker was not counted. -/
theorem connectionRequest_lenByte_counterexample :
    (NewClientConnectionRequestPDU [0]).len = 15 ∧
    (NewClientConnectionRequestPDU [0]).Serialize.length = 18 ∧
    (NewClientConnectionRequestPDU [0]).len ≠
      (NewClientConnectionRequestPDU [0]).Serialize.length - 1 := by
  decide

/-- C8: the negotiation structure the automaton sends keeps the constant
length field 8 regardless of the requested-protocol bitmask (Connect sets
only the type and result fields), its wire form carries the little-endian
length bytes 8, 0, and decoding the serialized bytes returns exactly the
structure — in particular the same bitmask. -/
theorem negotiation_roundtrip (r : Nat) (h : r < 4294967296) :
    (connectNegotiation r).length = 8 ∧
    (connectNegotiation r).Serialize = TYPE_RDP_NEG_REQ :: 0 :: 8 :: 0 :: writeUInt32LE r ∧
    parseNegotiation ((connectNegotiation r).Serialize) = some (connectNegotiation r) ∧
    (connectNegotiation r).result = r := by
  have hr : r % 4294967296 = r := Nat.mod_eq_of_lt h
  refine ⟨rfl, ?_, ?_, ?_⟩
  · simp only [connectNegotiation, NewNegotiation, Negotiation.Serialize, writeUInt16LE,
      writeUInt32LE, TYPE_RDP_NEG_REQ, hr]
    norm_num
  · simp only [connectNegotiation, NewNegotiation, Negotiation.Serialize, writeUInt16LE,
      writeUInt32LE, TYPE_RDP_NEG_REQ, hr, List.cons_append, List.nil_append,
      parseNegotiation, Option.some.injEq, Negotiation.mk.injEq]
    norm_num
    omega
  · simp only [connectNegotiation]
    exact hr

/-- C8 witness: the bitmask 3 = TLS with Hybrid, the value the automaton
requests, survives the round trip with length field 8. -/
theorem negotiation_roundtrip_witness :
    (connectNegotiation 3).length = 8 ∧
    (connectNegotiation 3).Serialize = TYPE_RDP_NEG_REQ :: 0 :: 8 :: 0 :: writeUInt32LE 3 ∧
    parseNegotiation ((connectNegotiation 3).Serialize) = some (connectNegotiation 3) ∧
    (connectNegotiation 3).result = 3 :=
  negotiation_roundtrip 3 (by decide)

end RDPportscan
